import Mathlib

/-!
Verification of the car-selector storefront frontend.

Shallow embedding of two source files:
* `src/frontend/src/components/InteractiveCarSelector.tsx` — a four-state
  UI widget (collapsed / brands / models / products) with brand → model →
  product drill-down, client-side search and price filtering;
* `src/frontend/src/providers/QueryProvider.tsx` — configuration of the
  offline-first query cache (retry count, persistence key, max age,
  version buster, write throttle).

Pure computations (filtering, truncation, render decisions) are embedded
as Lean functions; the event-driven component state is embedded as a step
function over an explicit state record, with one event per user-visible
handler plus a completion event for the asynchronous product fetch.
-/

/-! ### String primitives

The source calls the JavaScript string library: `toLowerCase()` and
`includes()`.  They are embedded at the character-list level (ASCII case
mapping, as exercised by every identifier in the repository). -/

/-- JavaScript `toLowerCase` on a single character (ASCII range). -/
def lowerChar (c : Char) : Char :=
  if 'A' ≤ c ∧ c ≤ 'Z' then Char.ofNat (c.toNat + 32) else c

/-- JavaScript `s.toLowerCase()`. -/
def jsToLower (s : String) : String := ⟨s.data.map lowerChar⟩

/-- Does the first list start with the second list? -/
def listStartsWith : List Char → List Char → Bool
  | _, [] => true
  | [], _ :: _ => false
  | a :: as, b :: bs => (a == b) && listStartsWith as bs

/-- Does `needle` occur as a contiguous subsequence of the first list? -/
def listContainsSeq : List Char → List Char → Bool
  | [], needle => needle.isEmpty
  | a :: as, needle => listStartsWith (a :: as) needle || listContainsSeq as needle

/-- JavaScript `hay.includes(needle)`. -/
def jsIncludes (hay needle : String) : Bool := listContainsSeq hay.data needle.data

/-! ### Data model (`InteractiveCarSelector.tsx`, interfaces) -/

/-- `CarBrand` interface. -/
structure CarBrand where
  id : String
  name : String
  name_ar : Option String := none
  logo_url : Option String := none
deriving DecidableEq

/-- `CarModel` interface. -/
structure CarModel where
  id : String
  name : String
  name_ar : Option String := none
  brand_id : String
  year_start : Option Int := none
  year_end : Option Int := none
deriving DecidableEq

/-- `Product` interface; `price` is a JavaScript number, embedded as `ℚ`. -/
structure Product where
  id : String
  name : String
  name_ar : Option String := none
  price : ℚ
  image : Option String := none
  sku : Option String := none
deriving DecidableEq

/-- `SelectorState` union type. -/
inductive SelectorState where
  | collapsed
  | brands
  | models
  | products
deriving DecidableEq

/-- The `priceFilter` union type `'all' | 'low' | 'medium' | 'high'`. -/
inductive PriceFilter where
  | all
  | low
  | medium
  | high
deriving DecidableEq

/-! ### Filtering (`filteredProducts`, lines 234-247) -/

/-- The search conjunct of the `filteredProducts` predicate (lines 236-239):
empty query always matches; otherwise a case-insensitive substring test
against `name`, `name_ar` (optional chaining) and `sku` (optional chaining). -/
def matchesSearch (searchQuery : String) (p : Product) : Bool :=
  searchQuery == "" ||
  jsIncludes (jsToLower p.name) (jsToLower searchQuery) ||
  (match p.name_ar with
   | some t => jsIncludes (jsToLower t) (jsToLower searchQuery)
   | none => false) ||
  (match p.sku with
   | some t => jsIncludes (jsToLower t) (jsToLower searchQuery)
   | none => false)

/-- The price conjunct of the `filteredProducts` predicate (lines 241-244):
`matchesPrice` starts `true` and is narrowed by the selected bracket. -/
def matchesPrice (priceFilter : PriceFilter) (price : ℚ) : Bool :=
  match priceFilter with
  | .all => true
  | .low => decide (price < 100)
  | .medium => decide (price ≥ 100) && decide (price < 500)
  | .high => decide (price ≥ 500)

/-- `filteredProducts` (line 235): `products.filter` of the conjunction of the
search predicate and the price predicate. -/
def filteredProducts (products : List Product) (searchQuery : String)
    (priceFilter : PriceFilter) : List Product :=
  products.filter (fun p => matchesSearch searchQuery p && matchesPrice priceFilter p.price)

/-! ### Grid truncation (lines 30-32, 249-253) -/

/-- `GRID_COLUMNS` constant. -/
def GRID_COLUMNS : Nat := 5

/-- `GRID_ROWS` constant. -/
def GRID_ROWS : Nat := 2

/-- The data the component reads from the global store: `carBrands` and
`carModels` (lines 67-68), fixed for the lifetime of an interaction. -/
structure StoreEnv where
  carBrands : List CarBrand
  carModels : List CarModel
deriving DecidableEq

/-- `displayBrands` (line 250): the first `GRID_COLUMNS * GRID_ROWS` brands. -/
def displayBrands (env : StoreEnv) : List CarBrand :=
  env.carBrands.take (GRID_COLUMNS * GRID_ROWS)

/-- `filteredModels` (lines 251-253): with a brand selected, the first
`GRID_COLUMNS * GRID_ROWS` models of that brand; otherwise empty. -/
def filteredModels (env : StoreEnv) (selectedBrand : Option CarBrand) : List CarModel :=
  match selectedBrand with
  | some b => (env.carModels.filter (fun m => m.brand_id == b.id)).take (GRID_COLUMNS * GRID_ROWS)
  | none => []

/-! ### Component state and transitions -/

/-- The component's local state: the seven `useState` hooks
(lines 71-77).  Animation values are presentation detail and omitted. -/
structure ComponentState where
  selectorState : SelectorState
  selectedBrand : Option CarBrand
  selectedModel : Option CarModel
  products : List Product
  loadingProducts : Bool
  searchQuery : String
  priceFilter : PriceFilter
deriving DecidableEq

/-- The initial state of the hooks (lines 71-77). -/
def initialState : ComponentState :=
  { selectorState := .collapsed
    selectedBrand := none
    selectedModel := none
    products := []
    loadingProducts := false
    searchQuery := ""
    priceFilter := .all }

/-- Result of the asynchronous product fetch: `.ok` carries
`response.data?.products` (an `Option` because of the optional chaining on
line 176), `.error` is the caught exception path (lines 177-179). -/
inductive FetchOutcome where
  | ok (products : Option (List Product))
  | error
deriving DecidableEq

/-- The user-visible events of the widget, one per handler wired into the
rendered markup, plus completion of the in-flight product fetch. -/
inductive Event where
  | anchorPress
  | brandSelect (b : CarBrand)
  | modelSelect (m : CarModel)
  | backToModels
  | backToBrands
  | productPress (pid : String)
  | closeProducts
  | viewAll
  | setSearch (q : String)
  | setPriceFilterTo (f : PriceFilter)
  | fetchComplete (r : FetchOutcome)
deriving DecidableEq

/-- One transition of the widget.  `none` means the event's handler is not
reachable in the given state (its control is not rendered there):
* `anchorPress` — `handleAnchorPress` (lines 185-197), always rendered;
* `brandSelect` — `handleBrandSelect` (199-202), a tile of the brands grid
  (rendered for `displayBrands` in state `brands`, lines 337-356);
* `modelSelect` — `handleModelSelect` (204-208), a tile of the models grid
  (rendered for `filteredModels` in state `models`); sets the loading flag
  via `fetchProductsForModel` (line 173);
* `backToModels` — `handleBackToModels` (210-214), products-panel back
  button (419-424);
* `backToBrands` — `handleBackToBrands` (216-220), brand breadcrumb,
  rendered only when expanded with a brand selected (299-311);
* `productPress` — `handleProductPress` (222-229), a card of the rendered
  (filtered) product list (494-519);
* `closeProducts` — the products-panel close button (433-438), which only
  sets the state to `collapsed`;
* `viewAll` — the View-All tile (381-394), rendered with the grid in
  states `brands` and `models`, which only sets the state to `collapsed`;
* `setSearch` / `setPriceFilterTo` — the search input (445-451) and filter
  chips (453-477) of the products panel;
* `fetchComplete` — resolution of `fetchProductsForModel` (172-183). -/
def step (env : StoreEnv) (s : ComponentState) (e : Event) : Option ComponentState :=
  match e with
  | .anchorPress =>
      if s.selectorState = .collapsed then
        some { s with selectorState := .brands }
      else
        some { s with
                selectorState := .collapsed
                selectedBrand := none
                selectedModel := none
                products := []
                searchQuery := ""
                priceFilter := .all }
  | .brandSelect b =>
      if s.selectorState = .brands ∧ b ∈ displayBrands env then
        some { s with selectedBrand := some b, selectorState := .models }
      else none
  | .modelSelect m =>
      if s.selectorState = .models ∧ m ∈ filteredModels env s.selectedBrand then
        some { s with
                selectedModel := some m
                selectorState := .products
                loadingProducts := true }
      else none
  | .backToModels =>
      if s.selectorState = .products then
        some { s with
                selectorState := .models
                selectedModel := none
                products := [] }
      else none
  | .backToBrands =>
      if s.selectorState ≠ .collapsed ∧ s.selectedBrand.isSome then
        some { s with
                selectorState := .brands
                selectedBrand := none
                selectedModel := none }
      else none
  | .productPress pid =>
      if s.selectorState = .products ∧
          pid ∈ (filteredProducts s.products s.searchQuery s.priceFilter).map Product.id then
        some { s with
                selectorState := .collapsed
                selectedBrand := none
                selectedModel := none
                products := [] }
      else none
  | .closeProducts =>
      if s.selectorState = .products then
        some { s with selectorState := .collapsed }
      else none
  | .viewAll =>
      if s.selectorState = .brands ∨ s.selectorState = .models then
        some { s with selectorState := .collapsed }
      else none
  | .setSearch q =>
      if s.selectorState = .products then some { s with searchQuery := q } else none
  | .setPriceFilterTo f =>
      if s.selectorState = .products then some { s with priceFilter := f } else none
  | .fetchComplete r =>
      if s.loadingProducts then
        some { s with
                loadingProducts := false
                products := match r with
                  | .ok (some ps) => ps
                  | .ok none => []
                  | .error => [] }
      else none

/-- Run a sequence of events from a state; `none` if any event is not
available where it is attempted. -/
def runEvents (env : StoreEnv) (s : ComponentState) : List Event → Option ComponentState
  | [] => some s
  | e :: es =>
      match step env s e with
      | some s' => runEvents env s' es
      | none => none

/-- The states reachable from the initial state by valid transitions. -/
inductive Reachable (env : StoreEnv) : ComponentState → Prop where
  | init : Reachable env initialState
  | next {s e s'} : Reachable env s → step env s e = some s' → Reachable env s'

/-! ### Render model -/

/-- What the products panel shows below the filter row (lines 481-520):
a loading indicator, the explicit "no products" empty display, or the
grid of filtered products.  The source renders no other alternative —
in particular there is no error banner. -/
inductive PanelBody where
  | loadingIndicator
  | emptyDisplay
  | productGrid (ps : List Product)
deriving DecidableEq

/-- The products-panel body decision (lines 481-520): loading flag first,
then emptiness of `filteredProducts`, else the grid. -/
def renderPanelBody (s : ComponentState) : PanelBody :=
  if s.loadingProducts then .loadingIndicator
  else if (filteredProducts s.products s.searchQuery s.priceFilter).length = 0 then .emptyDisplay
  else .productGrid (filteredProducts s.products s.searchQuery s.priceFilter)

/-- The visible content of one render of the widget. -/
structure WidgetView where
  anchorIcon : String
  breadcrumbBrand : Option CarBrand
  breadcrumbModel : Option CarModel
  gridTiles : List String
  panelBody : PanelBody
deriving DecidableEq

/-- A render produces either nothing at all or a widget view. -/
inductive RenderOutput where
  | empty
  | view (v : WidgetView)
deriving DecidableEq

/-- The component's render function, projected to visible content:
the early `return null` when `carBrands.length === 0` (lines 265-267),
the anchor icon choice (line 291), the breadcrumb (rendered only when
expanded, lines 299-323), the grid tile ids (lines 337-404) and the
products-panel body. -/
def render (env : StoreEnv) (s : ComponentState) : RenderOutput :=
  if env.carBrands.length = 0 then .empty
  else .view
    { anchorIcon := if s.selectorState = .collapsed then "car-sports" else "close"
      breadcrumbBrand := if s.selectorState = .collapsed then none else s.selectedBrand
      breadcrumbModel := if s.selectorState = .collapsed then none else s.selectedModel
      gridTiles :=
        match s.selectorState with
        | .brands => (displayBrands env).map CarBrand.id
        | .models => (filteredModels env s.selectedBrand).map CarModel.id
        | _ => []
      panelBody := renderPanelBody s }

/-! ### Cache/query layer configuration (`QueryProvider.tsx`) -/

/-- The `defaultOptions.queries` block of the `QueryClient` (lines 14-27).
Times are in milliseconds, as written in the source. -/
structure QueryDefaults where
  staleTime : Nat
  gcTime : Nat
  retry : Nat
  refetchOnReconnect : Bool
  refetchOnWindowFocus : Bool
  networkMode : String
deriving DecidableEq

/-- The `defaultOptions.mutations` block (lines 28-32). -/
structure MutationDefaults where
  retry : Nat
  networkMode : String
deriving DecidableEq

/-- The `queryClient` default options (lines 12-34). -/
def queryClientQueries : QueryDefaults :=
  { staleTime := 1000 * 60 * 60 * 24
    gcTime := 1000 * 60 * 60 * 24 * 7
    retry := 3
    refetchOnReconnect := true
    refetchOnWindowFocus := false
    networkMode := "offlineFirst" }

/-- The `queryClient` mutation defaults (lines 28-32). -/
def queryClientMutations : MutationDefaults :=
  { retry := 2
    networkMode := "offlineFirst" }

/-- The `createAsyncStoragePersister` configuration (lines 37-41). -/
structure PersisterConfig where
  key : String
  throttleTime : Nat
deriving DecidableEq

/-- `asyncStoragePersister` (lines 37-41). -/
def asyncStoragePersister : PersisterConfig :=
  { key := "alghazaly-query-cache"
    throttleTime := 1000 }

/-- The `persistOptions` passed to `PersistQueryClientProvider`
(lines 51-55). -/
structure PersistOptions where
  maxAge : Nat
  buster : String
deriving DecidableEq

/-- The provider's `persistOptions` (lines 51-55). -/
def queryProviderPersistOptions : PersistOptions :=
  { maxAge := 1000 * 60 * 60 * 24 * 7
    buster := "v1" }

/-- Modelled from the spec: the persist-restore semantics of the external
`PersistQueryClientProvider` / persister libraries, which are not part of
this repository.  Per the spec, persisted entries carry the buster tag and
a write timestamp; on restore, every entry is dropped when the stored
buster differs from the configured one ("a version tag that invalidates
all previously persisted cache entries when changed") or when the entry is
older than `maxAge` ("entries expire after a fixed retention window"). -/
def restorePersistedEntries (storedBuster : String) (now : Nat)
    (entries : List (String × String × Nat)) (opts : PersistOptions) :
    List (String × String × Nat) :=
  if storedBuster == opts.buster then
    entries.filter (fun e => decide (now - e.2.2 ≤ opts.maxAge))
  else []

/-- Modelled from the spec: the external query library's retry loop, which
is not part of this repository.  Per the spec ("Retries failed fetches a
fixed number of times before surfacing failure"), an attempt is made, and
on failure up to `retriesLeft` further attempts follow; the outcome of the
last attempt is surfaced.  `attemptOutcome n` is the result of the n-th
attempt (0-indexed). -/
def runWithRetries {α : Type} (attemptOutcome : Nat → Except Unit α) :
    Nat → Nat → Except Unit α
  | attempt, 0 => attemptOutcome attempt
  | attempt, retriesLeft + 1 =>
      match attemptOutcome attempt with
      | .ok a => .ok a
      | .error _ => runWithRetries attemptOutcome (attempt + 1) retriesLeft

/-! ### Concrete fixtures used in counterexamples and witnesses -/

/-- A sample brand. -/
def brand0 : CarBrand := { id := "b1", name := "Toyota" }

/-- A sample model of `brand0`. -/
def model0 : CarModel := { id := "m1", name := "Corolla", brand_id := "b1" }

/-- A sample product. -/
def product0 : Product := { id := "p1", name := "Brake Pad", price := 50, sku := some "BRK-001" }

/-- A sample store with one brand and one model. -/
def demoEnv : StoreEnv := { carBrands := [brand0], carModels := [model0] }

/-- A product whose name is `abc-123`, for the case-insensitive search example. -/
def searchDemoProduct : Product := { id := "p2", name := "abc-123", price := 50 }

/-- Drill down to the products panel, let the fetch succeed, type a search
query, pick a price bracket, then press the products-panel close button. -/
def c1Trace : List Event :=
  [.anchorPress, .brandSelect brand0, .modelSelect model0,
   .fetchComplete (.ok (some [product0])), .setSearch "brake",
   .setPriceFilterTo .low, .closeProducts]

/-- The state after pressing the anchor from the initial state. -/
def stateBrands0 : ComponentState := { initialState with selectorState := .brands }

/-- The state after then selecting `brand0`. -/
def stateModels0 : ComponentState :=
  { stateBrands0 with selectedBrand := some brand0, selectorState := .models }

/-- The state after then selecting `model0` (fetch in flight). -/
def stateProducts0 : ComponentState :=
  { stateModels0 with selectedModel := some model0, selectorState := .products, loadingProducts := true }

/-- The conjunction of invariants preserved by every transition: a selected
model implies a selected brand, and the `products` state implies a selected
model. -/
def SelectorInv (s : ComponentState) : Prop :=
  (s.selectedModel.isSome = true → s.selectedBrand.isSome = true) ∧
  (s.selectorState = .products → s.selectedModel.isSome = true)
theorem listStartsWith_iff (hay needle : List Char) :
    listStartsWith hay needle = true ↔ ∃ r, hay = needle ++ r := by
  induction needle generalizing hay with
  | nil => simp [listStartsWith]
  | cons b bs ih =>
    cases hay with
    | nil => simp [listStartsWith]
    | cons a as =>
      simp only [listStartsWith, Bool.and_eq_true, beq_iff_eq, ih, List.cons_append,
        List.cons.injEq]
      constructor
      · rintro ⟨rfl, r, rfl⟩; exact ⟨r, rfl, rfl⟩
      · rintro ⟨r, rfl, rfl⟩; exact ⟨rfl, r, rfl⟩

theorem listContainsSeq_iff (hay needle : List Char) :
    listContainsSeq hay needle = true ↔ ∃ l r, hay = l ++ needle ++ r := by
  induction hay with
  | nil =>
    simp only [listContainsSeq, List.isEmpty_iff]
    constructor
    · rintro rfl; exact ⟨[], [], rfl⟩
    · rintro ⟨l, r, h⟩
      rcases List.append_eq_nil.mp h.symm with ⟨h1, h2⟩
      exact (List.append_eq_nil.mp h1).2
  | cons a as ih =>
    simp only [listContainsSeq, Bool.or_eq_true, listStartsWith_iff, ih]
    constructor
    · rintro (⟨r, hr⟩ | ⟨l, r, hr⟩)
      · exact ⟨[], r, by simpa using hr⟩
      · exact ⟨a :: l, r, by simp [hr]⟩
    · rintro ⟨l, r, hr⟩
      cases l with
      | nil => exact Or.inl ⟨r, by simpa using hr⟩
      | cons x l' =>
        simp only [List.cons_append, List.cons.injEq] at hr
        exact Or.inr ⟨l', r, hr.2⟩

theorem jsIncludes_iff (hay needle : String) :
    jsIncludes hay needle = true ↔ ∃ l r, hay.data = l ++ needle.data ++ r :=
  listContainsSeq_iff hay.data needle.data


/-! ### Claim theorems -/

/-- C4: the price bracket predicate classifies a price as `low` iff it is
below 100, `medium` iff it is at least 100 and below 500, and `high` iff it
is at least 500; at the boundaries, exactly 100 matches `medium` (not `low`)
and exactly 500 matches `high` (not `medium`). -/
theorem c4_price_bracket_boundaries (price : ℚ) :
    (matchesPrice .low price = true ↔ price < 100) ∧
    (matchesPrice .medium price = true ↔ 100 ≤ price ∧ price < 500) ∧
    (matchesPrice .high price = true ↔ 500 ≤ price) ∧
    matchesPrice .medium 100 = true ∧ matchesPrice .low 100 = false ∧
    matchesPrice .high 500 = true ∧ matchesPrice .medium 500 = false := by
  refine ⟨?_, ?_, ?_, ?_, ?_, ?_, ?_⟩ <;>
    (simp [matchesPrice, ge_iff_le, decide_eq_true_eq]; try norm_num)

/-- C5: for a non-empty search query, a product passes the search predicate
iff the lowercased query occurs as a substring of the lowercased `name`, of
the lowercased `name_ar` when present, or of the lowercased `sku` when
present. -/
theorem c5_search_predicate (q : String) (p : Product) (hq : q ≠ "") :
    matchesSearch q p = true ↔
      ((∃ l r, (jsToLower p.name).data = l ++ (jsToLower q).data ++ r) ∨
       (∃ t, p.name_ar = some t ∧
         ∃ l r, (jsToLower t).data = l ++ (jsToLower q).data ++ r) ∨
       (∃ t, p.sku = some t ∧
         ∃ l r, (jsToLower t).data = l ++ (jsToLower q).data ++ r)) := by
  have hq' : (q == "") = false := beq_eq_false_iff_ne.mpr hq
  obtain ⟨pid, pname, pna, pprice, pimg, psku⟩ := p
  cases pna <;> cases psku <;>
    simp [matchesSearch, hq', jsIncludes_iff, or_assoc]

/-- C5 witness: the search text `ABC` matches a product named `abc-123`. -/
theorem c5_search_predicate_witness :
    "ABC" ≠ "" ∧ matchesSearch "ABC" searchDemoProduct = true :=
  ⟨by decide,
   (c5_search_predicate "ABC" searchDemoProduct (by decide)).mpr
     (Or.inl ⟨[], ['-', '1', '2', '3'], by decide⟩)⟩

/-- C10: with the empty search query and the `all` price bracket,
`filteredProducts` is the identity on the products list. -/
theorem c10_empty_filter_is_identity (ps : List Product) :
    filteredProducts ps "" .all = ps := by
  rw [filteredProducts, List.filter_eq_self]
  intro p _
  simp [matchesSearch, matchesPrice]

/-- C8: `filteredProducts` is a pure selection: it is a sublist of the
products list (same elements, original order, no mutation), and membership
is exactly the conjunction of the search predicate and the price
predicate.  In the embedding all component state is immutable, so the
computation cannot alter `products` or any other field. -/
theorem c8_filter_pure_selection (ps : List Product) (q : String) (f : PriceFilter) :
    List.Sublist (filteredProducts ps q f) ps ∧
    (∀ p : Product, p ∈ filteredProducts ps q f ↔
      p ∈ ps ∧ matchesSearch q p = true ∧ matchesPrice f p.price = true) := by
  refine ⟨List.filter_sublist ps, fun p => ?_⟩
  simp [filteredProducts, List.mem_filter, Bool.and_eq_true, and_assoc]

/-- C7: the brand grid shows at most 10 tiles, namely the first 10 brands;
the model grid shows at most 10 tiles, namely the first 10 models whose
`brand_id` is the selected brand's id; with no brand selected the model
grid is empty. -/
theorem c7_grid_truncation (env : StoreEnv) (b : CarBrand) :
    (displayBrands env).length ≤ 10 ∧
    displayBrands env = env.carBrands.take 10 ∧
    (filteredModels env (some b)).length ≤ 10 ∧
    filteredModels env (some b) =
      (env.carModels.filter (fun m => m.brand_id == b.id)).take 10 ∧
    filteredModels env none = [] := by
  refine ⟨?_, rfl, ?_, rfl, rfl⟩ <;>
    simp [displayBrands, filteredModels, GRID_COLUMNS, GRID_ROWS, List.length_take]

/-- C6: when the store's brand list is empty, the component renders nothing
(the early `return null`), whatever the rest of the state is. -/
theorem c6_no_brands_renders_nothing (env : StoreEnv) (s : ComponentState)
    (h : env.carBrands = []) : render env s = RenderOutput.empty := by
  simp [render, h]

/-- C6 witness: the empty store renders nothing from the initial state. -/
theorem c6_no_brands_renders_nothing_witness :
    render { carBrands := [], carModels := [] } initialState = RenderOutput.empty :=
  c6_no_brands_renders_nothing { carBrands := [], carModels := [] } initialState rfl

/-- C3: when the product fetch completes with the error outcome, the
resulting state has an empty products list, hence an empty
`filteredProducts`, the loading flag is cleared, and the products panel
shows the ordinary "no products" display — `PanelBody` enumerates every
alternative the source can render and has no error-banner alternative. -/
theorem c3_fetch_failure_silent (env : StoreEnv) (s s' : ComponentState)
    (h : step env s (.fetchComplete .error) = some s') :
    s'.products = [] ∧
    filteredProducts s'.products s'.searchQuery s'.priceFilter = [] ∧
    s'.loadingProducts = false ∧
    renderPanelBody s' = PanelBody.emptyDisplay := by
  rw [step] at h
  split at h
  · simp only [Option.some.injEq] at h
    subst h
    refine ⟨rfl, ?_, rfl, ?_⟩
    · simp [filteredProducts]
    · simp [renderPanelBody, filteredProducts]
  · exact Option.noConfusion h

/-- C3 witness: a failed fetch from the in-flight products state of the
demo store lands in the cleared products panel. -/
theorem c3_fetch_failure_silent_witness :
    ({ stateProducts0 with loadingProducts := false, products := [] }).products = [] ∧
    filteredProducts
      ({ stateProducts0 with loadingProducts := false, products := [] }).products
      ({ stateProducts0 with loadingProducts := false, products := [] }).searchQuery
      ({ stateProducts0 with loadingProducts := false, products := [] }).priceFilter = [] ∧
    ({ stateProducts0 with loadingProducts := false, products := [] }).loadingProducts = false ∧
    renderPanelBody { stateProducts0 with loadingProducts := false, products := [] } =
      PanelBody.emptyDisplay :=
  c3_fetch_failure_silent demoEnv stateProducts0
    { stateProducts0 with loadingProducts := false, products := [] } (by decide)

/-- C1 counterexample: from the initial state, drill down to the products
panel, let the fetch succeed, type a search query, pick the `low` price
bracket, then press the products-panel close button.  The destination
state is `collapsed`, yet the selected brand is still set, the search
query is not empty, and the price filter is not `all` — refuting the
claim that every transition into `collapsed` clears them. -/
theorem c1_collapse_counterexample :
    ((runEvents demoEnv initialState c1Trace).map ComponentState.selectorState =
      some SelectorState.collapsed) ∧
    ¬ ((runEvents demoEnv initialState c1Trace).map ComponentState.selectedBrand =
      some none) ∧
    ¬ ((runEvents demoEnv initialState c1Trace).map ComponentState.products =
      some []) ∧
    ¬ ((runEvents demoEnv initialState c1Trace).map ComponentState.searchQuery =
      some "") ∧
    ¬ ((runEvents demoEnv initialState c1Trace).map ComponentState.priceFilter =
      some PriceFilter.all) := by
  decide

/-- C1 amended: of the four transitions whose destination is `collapsed`,
only the anchor press while expanded clears the selection, the products
list, the search query and the price filter; opening a product clears the
selection and the products list but keeps the search query and the price
filter; the products-panel close button and the View-All tile change only
the selector state. -/
theorem c1_collapse_transitions (env : StoreEnv) (s : ComponentState) (pid : String) :
    (s.selectorState ≠ .collapsed →
      step env s .anchorPress = some { s with selectorState := .collapsed, selectedBrand := none, selectedModel := none, products := [], searchQuery := "", priceFilter := .all }) ∧
    (s.selectorState = .products →
      pid ∈ (filteredProducts s.products s.searchQuery s.priceFilter).map Product.id →
      step env s (.productPress pid) = some { s with selectorState := .collapsed, selectedBrand := none, selectedModel := none, products := [] }) ∧
    (s.selectorState = .products →
      step env s .closeProducts = some { s with selectorState := .collapsed }) ∧
    (s.selectorState = .brands ∨ s.selectorState = .models →
      step env s .viewAll = some { s with selectorState := .collapsed }) := by
  refine ⟨fun h1 => ?_, fun h2 h2' => ?_, fun h3 => ?_, fun h4 => ?_⟩ <;>
    simp [step, *]

/-- C1 amended witness: in the demo products state the close button keeps
every field but the selector state, and the anchor press clears them. -/
theorem c1_collapse_transitions_witness :
    step demoEnv stateProducts0 .closeProducts =
      some { stateProducts0 with selectorState := .collapsed } ∧
    step demoEnv stateProducts0 .anchorPress =
      some { stateProducts0 with selectorState := .collapsed, selectedBrand := none, selectedModel := none, products := [], searchQuery := "", priceFilter := .all } :=
  ⟨(c1_collapse_transitions demoEnv stateProducts0 "p1").2.2.1 rfl,
   (c1_collapse_transitions demoEnv stateProducts0 "p1").1 (by decide)⟩

/-- A model can only be a member of `filteredModels` when a brand is
actually selected. -/
theorem brand_isSome_of_mem_filteredModels {env : StoreEnv}
    {ob : Option CarBrand} {m : CarModel} (h : m ∈ filteredModels env ob) :
    ob.isSome = true := by
  cases ob with
  | none => simp [filteredModels] at h
  | some b => rfl

/-- Unfolding of `step` at a fetch-completion event. -/
theorem step_fetchComplete (env : StoreEnv) (s : ComponentState) (r : FetchOutcome) :
    step env s (.fetchComplete r) =
      (if s.loadingProducts then
        some { s with
                loadingProducts := false
                products := match r with
                  | .ok (some ps) => ps
                  | .ok none => []
                  | .error => [] }
      else none) := rfl

/-- Every transition preserves the selection invariants. -/
theorem step_preserves_selectorInv {env : StoreEnv} {s : ComponentState}
    {e : Event} {s' : ComponentState} (hs : SelectorInv s)
    (h : step env s e = some s') : SelectorInv s' := by
  obtain ⟨h1, h2⟩ := hs
  cases e with
  | anchorPress =>
    rw [step] at h
    split at h <;> (simp only [Option.some.injEq] at h; subst h)
    · exact ⟨h1, by intro hp; simp at hp⟩
    · exact ⟨by intro hm; simp at hm, by intro hp; simp at hp⟩
  | brandSelect b =>
    rw [step] at h
    split at h
    · simp only [Option.some.injEq] at h
      subst h
      exact ⟨by intro _; rfl, by intro hp; simp at hp⟩
    · exact Option.noConfusion h
  | modelSelect m =>
    rw [step] at h
    split at h
    · simp only [Option.some.injEq] at h
      subst h
      next hc =>
        exact ⟨by intro _; exact brand_isSome_of_mem_filteredModels hc.2,
               by intro _; rfl⟩
    · exact Option.noConfusion h
  | backToModels =>
    rw [step] at h
    split at h
    · simp only [Option.some.injEq] at h
      subst h
      exact ⟨by intro hm; simp at hm, by intro hp; simp at hp⟩
    · exact Option.noConfusion h
  | backToBrands =>
    rw [step] at h
    split at h
    · simp only [Option.some.injEq] at h
      subst h
      exact ⟨by intro hm; simp at hm, by intro hp; simp at hp⟩
    · exact Option.noConfusion h
  | productPress pid =>
    rw [step] at h
    split at h
    · simp only [Option.some.injEq] at h
      subst h
      exact ⟨by intro hm; simp at hm, by intro hp; simp at hp⟩
    · exact Option.noConfusion h
  | closeProducts =>
    rw [step] at h
    split at h
    · simp only [Option.some.injEq] at h
      subst h
      exact ⟨h1, by intro hp; simp at hp⟩
    · exact Option.noConfusion h
  | viewAll =>
    rw [step] at h
    split at h
    · simp only [Option.some.injEq] at h
      subst h
      exact ⟨h1, by intro hp; simp at hp⟩
    · exact Option.noConfusion h
  | setSearch q =>
    rw [step] at h
    split at h
    · simp only [Option.some.injEq] at h
      subst h
      next hc => exact ⟨h1, by intro _; exact h2 hc⟩
    · exact Option.noConfusion h
  | setPriceFilterTo f =>
    rw [step] at h
    split at h
    · simp only [Option.some.injEq] at h
      subst h
      next hc => exact ⟨h1, by intro _; exact h2 hc⟩
    · exact Option.noConfusion h
  | fetchComplete r =>
    rw [step_fetchComplete] at h
    split at h
    · simp only [Option.some.injEq] at h
      subst h
      exact ⟨h1, h2⟩
    · exact Option.noConfusion h

/-- C2: in every state reachable from the initial state by the widget's
transitions, a selected model implies a selected brand, and the `products`
state is only ever reached with a selected model. -/
theorem c2_selection_invariant (env : StoreEnv) (s : ComponentState)
    (h : Reachable env s) :
    (s.selectedModel.isSome = true → s.selectedBrand.isSome = true) ∧
    (s.selectorState = .products → s.selectedModel.isSome = true) := by
  have : SelectorInv s := by
    induction h with
    | init => exact ⟨by intro hm; simp [initialState] at hm,
                     by intro hp; simp [initialState] at hp⟩
    | next _ hstep ih => exact step_preserves_selectorInv ih hstep
  exact this

/-- C2 witness: the invariant holds in the demo products state reached by
anchor press, brand selection and model selection. -/
theorem c2_selection_invariant_witness :
    (stateProducts0.selectedModel.isSome = true →
      stateProducts0.selectedBrand.isSome = true) ∧
    (stateProducts0.selectorState = .products →
      stateProducts0.selectedModel.isSome = true) :=
  c2_selection_invariant demoEnv stateProducts0
    (@Reachable.next demoEnv stateModels0 (.modelSelect model0) stateProducts0
      (@Reachable.next demoEnv stateBrands0 (.brandSelect brand0) stateModels0
        (@Reachable.next demoEnv initialState .anchorPress stateBrands0
          Reachable.init (by decide))
        (by decide))
      (by decide))

/-- Unfolding of `runWithRetries` with no retries left. -/
theorem runWithRetries_zero {α : Type} (f : Nat → Except Unit α) (a : Nat) :
    runWithRetries f a 0 = f a := rfl

/-- Unfolding of `runWithRetries` past one failed attempt. -/
theorem runWithRetries_failed_attempt {α : Type} {f : Nat → Except Unit α}
    {a : Nat} (r : Nat) (h : f a = .error ()) :
    runWithRetries f a (r + 1) = runWithRetries f (a + 1) r := by
  rw [runWithRetries, h]

/-- An always-failing fetch surfaces an error after exhausting retries. -/
theorem runWithRetries_error_of_all_error {α : Type} {f : Nat → Except Unit α}
    (hf : ∀ n, f n = .error ()) (r a : Nat) :
    runWithRetries f a r = .error () := by
  induction r generalizing a with
  | zero => rw [runWithRetries_zero, hf]
  | succ r ih => rw [runWithRetries_failed_attempt r (hf a), ih]

/-- C9: the query layer is configured to retry a failed fetch exactly 3
times (failures on attempts 0-2 still recover on attempt 3, and a fetch
failing on every attempt surfaces the error), results persist under the
fixed key `alghazaly-query-cache` with a maximum age of 7 days in
milliseconds, persisted entries are all dropped on restore when the stored
buster differs from the configured `v1`, and persistence writes are
throttled to one flush per 1000 milliseconds. -/
theorem c9_cache_configuration :
    queryClientQueries.retry = 3 ∧
    asyncStoragePersister.key = "alghazaly-query-cache" ∧
    asyncStoragePersister.throttleTime = 1000 ∧
    queryProviderPersistOptions.maxAge = 1000 * 60 * 60 * 24 * 7 ∧
    queryProviderPersistOptions.buster = "v1" ∧
    (∀ f : Nat → Except Unit (List Product), (∀ n, f n = .error ()) →
      runWithRetries f 0 queryClientQueries.retry = .error ()) ∧
    (∀ (f : Nat → Except Unit (List Product)) (v : List Product),
      f 0 = .error () → f 1 = .error () → f 2 = .error () → f 3 = .ok v →
      runWithRetries f 0 queryClientQueries.retry = .ok v) ∧
    (∀ (b : String) (n : Nat) (l : List (String × String × Nat)), b ≠ "v1" →
      restorePersistedEntries b n l queryProviderPersistOptions = []) := by
  refine ⟨rfl, rfl, rfl, rfl, rfl, ?_, ?_, ?_⟩
  · intro f hf
    exact runWithRetries_error_of_all_error hf _ 0
  · intro f v h0 h1 h2 h3
    show runWithRetries f 0 3 = .ok v
    rw [show (3 : Nat) = 2 + 1 from rfl, runWithRetries_failed_attempt 2 h0,
      show (2 : Nat) = 1 + 1 from rfl, runWithRetries_failed_attempt 1 h1,
      show (1 : Nat) = 0 + 1 from rfl, runWithRetries_failed_attempt 0 h2,
      runWithRetries_zero, h3]
  · intro b n l hb
    have hb' : (b == "v1") = false := beq_eq_false_iff_ne.mpr hb
    rw [restorePersistedEntries]
    simp [queryProviderPersistOptions, hb']

/-- C9 witness: an always-failing fetch surfaces the error under the
configured retry count, and a stale buster empties the restored cache. -/
theorem c9_cache_configuration_witness :
    runWithRetries (fun _ => (Except.error () : Except Unit (List Product))) 0
      queryClientQueries.retry = .error () ∧
    restorePersistedEntries "v0" 0 [("q", "d", 0)] queryProviderPersistOptions = [] :=
  ⟨c9_cache_configuration.2.2.2.2.2.1 (fun _ => .error ()) (fun _ => rfl),
   c9_cache_configuration.2.2.2.2.2.2.2 "v0" 0 [("q", "d", 0)] (by decide)⟩
